import Mathlib

/-
Verification of the symbolic patch-representation value types of QBDI
(src/Patch/Types.h): RegLLVM, Reg, Shadow, Constant, Offset, Temp,
Operand and the ShadowReservedTag values, embedded shallowly in Lean.
Machine integers are modelled as Nat (with explicit `% 2^16` where the
source narrows to uint16_t) and int64_t as Int.
-/

namespace QBDI

/-- Structure representing a register in LLVM (Types.h, struct RegLLVM):
wraps the raw llvm register id. -/
structure RegLLVM where
  id : Nat
deriving DecidableEq

/-- RegLLVM::getValue, returning the raw llvm id. -/
def RegLLVM.getValue (r : RegLLVM) : Nat := r.id

/-- RegLLVM::operator==(const RegLLVM &o): id == o.id. -/
def RegLLVM.beq (a o : RegLLVM) : Bool := a.id == o.id

/-- RegLLVM::operator!=(const RegLLVM &o): id != o.id. -/
def RegLLVM.bne (a o : RegLLVM) : Bool := a.id != o.id

/-- RegLLVM::operator<(const RegLLVM &o): id < o.id. -/
def RegLLVM.blt (a o : RegLLVM) : Bool := decide (a.id < o.id)

/-- Free operator==(unsigned int id, const RegLLVM &reg): returns
reg == id, where id is implicitly converted to RegLLVM. -/
def uintEqRegLLVM (id : Nat) (reg : RegLLVM) : Bool := RegLLVM.beq reg ⟨id⟩

/-- Free operator!=(unsigned int id, const RegLLVM &reg): returns
reg != id, where id is implicitly converted to RegLLVM. -/
def uintNeRegLLVM (id : Nat) (reg : RegLLVM) : Bool := RegLLVM.bne reg ⟨id⟩

/-- Modelled from the spec: the architecture-dependent data that Types.h
imports from headers outside the excerpt (ExecBlock/Context.h,
Patch/Register.h, QBDI/State.h): the byte offset of the saved GPR block
inside the execution context (offsetof(Context, gprState)), the machine
word size in bytes (sizeof(rword)), and the fixed architecture-specific
lookup table GPR_ID mapping guest GPR slot ids to architectural (LLVM)
register handles. -/
structure Arch where
  gprStateOffset : Nat
  rwordSize : Nat
  gpr_id : List RegLLVM

/-- Structure representing a register variable in PatchDSL
(Types.h, struct Reg): a guest GPR slot index. -/
structure Reg where
  id : Nat
deriving DecidableEq

/-- Reg::getID, the id of the register in GPRState. -/
def Reg.getID (r : Reg) : Nat := r.id

/-- Reg::operator RegLLVM(): the lookup GPR_ID[id] (out-of-range ids,
undefined behaviour in the source, are totalised with a default). -/
def Reg.toRegLLVM (A : Arch) (r : Reg) : RegLLVM := A.gpr_id.getD r.id ⟨0⟩

/-- Reg::getValue(): GPR_ID[id].getValue(). -/
def Reg.getValue (A : Arch) (r : Reg) : Nat := (r.toRegLLVM A).getValue

/-- Reg::offset(): offsetof(Context, gprState) + sizeof(rword) * id. -/
def Reg.offset (A : Arch) (r : Reg) : Nat :=
  A.gprStateOffset + A.rwordSize * r.id

/-- Reg::operator==(const RegLLVM &o): returns o == *this, converting
*this to RegLLVM through the lookup table. -/
def Reg.beqRegLLVM (A : Arch) (r : Reg) (o : RegLLVM) : Bool :=
  RegLLVM.beq o (r.toRegLLVM A)

/-- Reg::operator!=(const RegLLVM &o): returns o != *this. -/
def Reg.bneRegLLVM (A : Arch) (r : Reg) (o : RegLLVM) : Bool :=
  RegLLVM.bne o (r.toRegLLVM A)

/-- The expression a == r for a RegLLVM and r Reg: resolves to
RegLLVM::operator== with r implicitly converted to RegLLVM. -/
def regLLVMEqReg (A : Arch) (a : RegLLVM) (r : Reg) : Bool :=
  RegLLVM.beq a (r.toRegLLVM A)

/-- The expression a != r for a RegLLVM and r Reg: resolves to
RegLLVM::operator!= with r implicitly converted to RegLLVM. -/
def regLLVMNeReg (A : Arch) (a : RegLLVM) (r : Reg) : Bool :=
  RegLLVM.bne a (r.toRegLLVM A)

/-- Reg::operator<(const Reg &o): compares the GPR slot ids directly. -/
def Reg.blt (r o : Reg) : Bool := decide (r.id < o.id)

/-- The expression r == o for two Reg values: the only viable overload is
Reg::operator==(const RegLLVM &) with o converted to RegLLVM, whose body
returns (RegLLVM)o == (RegLLVM)r. -/
def Reg.beqReg (A : Arch) (r o : Reg) : Bool :=
  Reg.beqRegLLVM A r (o.toRegLLVM A)

/-- Structure representing a shadow variable in PatchDSL
(Types.h, struct Shadow): a 16-bit tag. -/
structure Shadow where
  tag : Nat

/-- Shadow::Shadow(uint16_t tag): the argument is narrowed to 16 bits by
the parameter type. -/
def Shadow.ofTag (t : Nat) : Shadow := ⟨t % 65536⟩

/-- Shadow::getTag(): the tag, widened to rword without modification. -/
def Shadow.getTag (s : Shadow) : Nat := s.tag

/-- ShadowReservedTag::MEMORY_TAG_BEGIN = 0xffe0. -/
def MEMORY_TAG_BEGIN : Nat := 0xffe0

/-- ShadowReservedTag::MEMORY_TAG_END = 0xfff0. -/
def MEMORY_TAG_END : Nat := 0xfff0

/-- ShadowReservedTag::Untagged = 0xffff. -/
def Untagged : Nat := 0xffff

/-- Modelled from the spec: a 16-bit shadow tag is reserved when it lies
in the memory-access bookkeeping range [MEMORY_TAG_BEGIN, MEMORY_TAG_END)
or is the default no-tag value Untagged; every other value is free for
instrumentation use. -/
def shadowTagReserved (t : Nat) : Bool :=
  (decide (MEMORY_TAG_BEGIN ≤ t) && decide (t < MEMORY_TAG_END)) ||
    t == Untagged

/-- Structure representing a constant value in PatchDSL
(Types.h, struct Constant). -/
structure Constant where
  v : Nat

/-- Constant::operator rword(): the constant value. -/
def Constant.toRword (c : Constant) : Nat := c.v

/-- Structure representing a memory offset variable in PatchDSL
(Types.h, struct Offset). -/
structure Offset where
  offset : Int

/-- Offset::Offset(int64_t offset). -/
def Offset.ofInt (v : Int) : Offset := ⟨v⟩

/-- Offset::Offset(Reg reg): offset(reg.offset()). -/
def Offset.ofReg (A : Arch) (r : Reg) : Offset := ⟨(r.offset A : Int)⟩

/-- Offset::operator int64_t(): the offset value. -/
def Offset.toInt (o : Offset) : Int := o.offset

/-- Structure representing a temporary register variable in PatchDSL
(Types.h, struct Temp). -/
structure Temp where
  id : Nat

/-- Temp::operator unsigned int(): the Temp id. -/
def Temp.toUInt (t : Temp) : Nat := t.id

/-- Structure representing an operand instruction variable in PatchDSL
(Types.h, struct Operand). -/
structure Operand where
  idx : Nat

/-- Operand::operator unsigned int(): the Operand idx. -/
def Operand.toUInt (o : Operand) : Nat := o.idx

/-- A concrete sample architecture used to instantiate witnesses: word
size 8 and saved-GPR base offset 64 (the values of the end-to-end
scenario in the spec) with a four-entry GPR lookup table. -/
def archX64 : Arch :=
  { gprStateOffset := 64, rwordSize := 8,
    gpr_id := [⟨101⟩, ⟨102⟩, ⟨103⟩, ⟨104⟩] }

/-- C1: for every Reg with a valid GPR id i, offset() equals the base
offset of the saved GPR block in the execution context plus i times the
machine word size, and for consecutive valid ids the offsets differ by
exactly the machine word size. -/
theorem C1_offset_linear (A : Arch) (i : Nat)
    (h : i + 1 < A.gpr_id.length) :
    Reg.offset A ⟨i⟩ = A.gprStateOffset + A.rwordSize * i ∧
    Reg.offset A ⟨i + 1⟩ - Reg.offset A ⟨i⟩ = A.rwordSize := by
  refine ⟨rfl, ?_⟩
  simp only [Reg.offset, Nat.mul_add, Nat.mul_one]
  omega

/-- Witness for C1 at the sample architecture with id 0: the offset of
slot 0 is 64 and the step to slot 1 is the word size 8. -/
theorem C1_offset_linear_witness :
    Reg.offset archX64 ⟨0⟩ = archX64.gprStateOffset + archX64.rwordSize * 0 ∧
    Reg.offset archX64 ⟨0 + 1⟩ - Reg.offset archX64 ⟨0⟩ = archX64.rwordSize :=
  C1_offset_linear archX64 0 (by decide)

/-- C3: equality between a Reg and a RegLLVM delegates through the
Reg-to-RegLLVM conversion (it holds exactly when GPR_ID[r.id] has the
same raw id as the RegLLVM operand) and is symmetric in both the == and
the != form. -/
theorem C3_reg_regLLVM_eq_symmetric (A : Arch) (r : Reg) (a : RegLLVM) :
    (Reg.beqRegLLVM A r a = true ↔ (r.toRegLLVM A).id = a.id) ∧
    Reg.beqRegLLVM A r a = regLLVMEqReg A a r ∧
    Reg.bneRegLLVM A r a = regLLVMNeReg A a r ∧
    Reg.bneRegLLVM A r a = !Reg.beqRegLLVM A r a := by
  refine ⟨?_, rfl, rfl, ?_⟩
  · simp only [Reg.beqRegLLVM, RegLLVM.beq, beq_iff_eq]
    exact eq_comm
  · simp [Reg.bneRegLLVM, Reg.beqRegLLVM, RegLLVM.bne, RegLLVM.beq, bne]

/-- C4: for a valid id, the Reg-to-RegLLVM conversion is exactly the
fixed table entry GPR_ID[i], it is a pure function of the id, and
getValue() returns the raw id of the converted handle. -/
theorem C4_conversion_stable (A : Arch) (i : Nat)
    (h : i < A.gpr_id.length) :
    Reg.toRegLLVM A ⟨i⟩ = A.gpr_id.get ⟨i, h⟩ ∧
    (∀ r s : Reg, r.id = s.id → Reg.toRegLLVM A r = Reg.toRegLLVM A s) ∧
    Reg.getValue A ⟨i⟩ = (Reg.toRegLLVM A ⟨i⟩).id := by
  refine ⟨?_, ?_, rfl⟩
  · simp [Reg.toRegLLVM, List.getD_eq_getElem?_getD, List.getElem?_eq_getElem h]
  · intro r s hrs
    simp [Reg.toRegLLVM, hrs]

/-- Witness for C4 at the sample architecture with id 1: the conversion
yields the table entry, which has raw id 102. -/
theorem C4_conversion_stable_witness :
    Reg.toRegLLVM archX64 ⟨1⟩ = archX64.gpr_id.get ⟨1, by decide⟩ :=
  (C4_conversion_stable archX64 1 (by decide)).1

/-- C5: an Offset built from a Reg carries exactly that register's
context offset, and for an architecture with word size 8 and saved-GPR
base offset 64 the Offset of Reg(0) is 64 past the context base. -/
theorem C5_offset_of_reg (A : Arch) (r : Reg) :
    (Offset.ofReg A r).toInt = (Reg.offset A r : Int) ∧
    (A.rwordSize = 8 → A.gprStateOffset = 64 →
      (Offset.ofReg A ⟨0⟩).toInt = 64) := by
  refine ⟨rfl, ?_⟩
  intro hw hb
  simp [Offset.ofReg, Offset.toInt, Reg.offset, hw, hb]

/-- Witness for C5 at the sample architecture: Offset(Reg(0)) is 64. -/
theorem C5_offset_of_reg_witness :
    (Offset.ofReg archX64 ⟨0⟩).toInt = 64 :=
  (C5_offset_of_reg archX64 ⟨0⟩).2 rfl rfl

/-- C6: the reserved shadow tag namespaces are disjoint:
MEMORY_TAG_BEGIN < MEMORY_TAG_END so the memory-access range is
non-empty, Untagged = 0xFFFF lies outside [MEMORY_TAG_BEGIN,
MEMORY_TAG_END), and every 16-bit tag outside that range and different
from Untagged is not reserved. -/
theorem C6_reserved_tags_disjoint :
    MEMORY_TAG_BEGIN < MEMORY_TAG_END ∧
    ¬(MEMORY_TAG_BEGIN ≤ Untagged ∧ Untagged < MEMORY_TAG_END) ∧
    ∀ t : Nat, t < 65536 →
      ¬(MEMORY_TAG_BEGIN ≤ t ∧ t < MEMORY_TAG_END) → t ≠ Untagged →
      shadowTagReserved t = false := by
  refine ⟨by decide, by decide, ?_⟩
  intro t ht hrange hunt
  simp only [shadowTagReserved, Bool.or_eq_false_iff, Bool.and_eq_false_iff,
    decide_eq_false_iff_not, beq_eq_false_iff_ne, ne_eq]
  constructor
  · by_cases hb : MEMORY_TAG_BEGIN ≤ t
    · exact Or.inr (fun hlt => hrange ⟨hb, hlt⟩)
    · exact Or.inl hb
  · exact hunt

/-- Witness for C6 at tag 5: the tag is free. -/
theorem C6_reserved_tags_disjoint_witness : shadowTagReserved 5 = false :=
  C6_reserved_tags_disjoint.2.2 5 (by decide) (by decide) (by decide)

/-- C7: a Shadow built from any 16-bit tag t returns exactly t from
getTag(), and the result is below 2^16. -/
theorem C7_shadow_tag_roundtrip (t : Nat) (h : t < 65536) :
    (Shadow.ofTag t).getTag = t ∧ (Shadow.ofTag t).getTag < 65536 := by
  refine ⟨?_, ?_⟩
  · simp [Shadow.ofTag, Shadow.getTag, Nat.mod_eq_of_lt h]
  · exact Nat.mod_lt _ (by decide)

/-- Witness for C7 at tag 0xABCD. -/
theorem C7_shadow_tag_roundtrip_witness :
    (Shadow.ofTag 0xABCD).getTag = 0xABCD ∧
    (Shadow.ofTag 0xABCD).getTag < 65536 :=
  C7_shadow_tag_roundtrip 0xABCD (by decide)

/-- C8: each symbolic placeholder round-trips to the raw value it was
built from: Constant to its word, Temp to its id, Operand to its idx. -/
theorem C8_placeholder_roundtrip (v i j : Nat) :
    (Constant.mk v).toRword = v ∧
    (Temp.mk i).toUInt = i ∧
    (Operand.mk j).toUInt = j :=
  ⟨rfl, rfl, rfl⟩

/-- C9: equality and ordering on RegLLVM are determined by the raw id
only; != is the negation of ==, and < is a strict total order
(irreflexive, transitive, connected). -/
theorem C9_regLLVM_order (a b c : RegLLVM) :
    (RegLLVM.beq a b = true ↔ a.id = b.id) ∧
    RegLLVM.bne a b = !RegLLVM.beq a b ∧
    (RegLLVM.blt a b = true ↔ a.id < b.id) ∧
    RegLLVM.blt a a = false ∧
    (RegLLVM.blt a b = true → RegLLVM.blt b c = true →
      RegLLVM.blt a c = true) ∧
    (RegLLVM.blt a b = true ∨ a = b ∨ RegLLVM.blt b a = true) := by
  refine ⟨?_, ?_, ?_, ?_, ?_, ?_⟩
  · simp [RegLLVM.beq]
  · simp [RegLLVM.bne, RegLLVM.beq, bne]
  · simp [RegLLVM.blt]
  · simp [RegLLVM.blt]
  · simp only [RegLLVM.blt, decide_eq_true_eq]
    omega
  · simp only [RegLLVM.blt, decide_eq_true_eq]
    rcases Nat.lt_trichotomy a.id b.id with h | h | h
    · exact Or.inl h
    · refine Or.inr (Or.inl ?_)
      cases a; cases b; simp_all
    · exact Or.inr (Or.inr h)

/-- Witness for C9: transitivity of < at raw ids 1 < 2 < 3. -/
theorem C9_regLLVM_order_witness : RegLLVM.blt ⟨1⟩ ⟨3⟩ = true :=
  (C9_regLLVM_order ⟨1⟩ ⟨2⟩ ⟨3⟩).2.2.2.2.1 (by decide) (by decide)

/-- C10: equality between two Reg values goes through the RegLLVM
conversion (Reg(i) == Reg(j) exactly when GPR_ID[i] and GPR_ID[j] share
the same raw id) whereas < compares the slot ids directly; on valid ids,
equality agrees with sameness of slot id exactly when the GPR_ID table
is injective on valid ids. -/
theorem C10_reg_eq_vs_lt (A : Arch) (i j : Nat) :
    (Reg.beqReg A ⟨i⟩ ⟨j⟩ = true ↔
      (Reg.toRegLLVM A ⟨i⟩).id = (Reg.toRegLLVM A ⟨j⟩).id) ∧
    (Reg.blt ⟨i⟩ ⟨j⟩ = true ↔ i < j) ∧
    ((∀ p q : Nat, p < A.gpr_id.length → q < A.gpr_id.length →
        (Reg.beqReg A ⟨p⟩ ⟨q⟩ = true ↔ p = q)) ↔
      (∀ p q : Nat, p < A.gpr_id.length → q < A.gpr_id.length →
        (Reg.toRegLLVM A ⟨p⟩).id = (Reg.toRegLLVM A ⟨q⟩).id → p = q)) := by
  have hbeq : ∀ p q : Nat, Reg.beqReg A ⟨p⟩ ⟨q⟩ = true ↔
      (Reg.toRegLLVM A ⟨p⟩).id = (Reg.toRegLLVM A ⟨q⟩).id := by
    intro p q
    simp only [Reg.beqReg, Reg.beqRegLLVM, RegLLVM.beq, beq_iff_eq]
    exact eq_comm
  refine ⟨hbeq i j, by simp [Reg.blt], ?_⟩
  constructor
  · intro hagree p q hp hq hid
    exact (hagree p q hp hq).mp ((hbeq p q).mpr hid)
  · intro hinj p q hp hq
    rw [hbeq p q]
    constructor
    · exact hinj p q hp hq
    · intro hpq
      rw [hpq]

/-- Witness for C10 at the sample architecture: Reg(0) < Reg(1) holds via
the slot-id characterisation. -/
theorem C10_reg_eq_vs_lt_witness : Reg.blt ⟨0⟩ ⟨1⟩ = true :=
  (C10_reg_eq_vs_lt archX64 0 1).2.1.mpr (by decide)

end QBDI
